import Mathlib

/-!
Shallow embedding of the URL-shortener Lambda (Go, `main.go`): a request
router (`handleRequest`), a create handler (`createShortURL`), a resolve
handler (`getOriginalURL`) and the short-code generator
(`generateShortURL`), over an abstract key-value store standing for the
DynamoDB table.  Timestamps are modelled as the nanosecond count
`time.Now().UnixNano()` (a `Nat`; the program only runs after 1970).
DynamoDB and the AWS SDK marshalling layer are external collaborators;
each call that can fail in the Go code is governed by a boolean oracle in
`DDBEnv`, and every attempted store call is recorded in an operation log
so that "no store access" properties are statable.
-/

namespace UrlShortener

/-- A JSON value, the result of parsing a request body.  A Go request body
is a byte string; `encoding/json` first parses it, so we model the body as
`Option JsonValue`: `none` stands for text that is not valid JSON. -/
inductive JsonValue where
  | null : JsonValue
  | bool (b : Bool) : JsonValue
  | num (n : Int) : JsonValue
  | str (s : String) : JsonValue
  | arr (elts : List JsonValue) : JsonValue
  | obj (fields : List (String × JsonValue)) : JsonValue

/-- Last match of a key among JSON object fields: Go's `encoding/json`
lets a later duplicate key overwrite an earlier one. -/
def lookupField (k : String) : List (String × JsonValue) → Option JsonValue
  | [] => none
  | (k1, v) :: rest =>
    match lookupField k rest with
    | some v2 => some v2
    | none => if k1 = k then some v else none

/-- Mirror of the Go struct `URLMapping` (the DynamoDB item).
`created_at` is the instant as a nanosecond count. -/
structure URLMapping where
  short_url : String
  long_url : String
  created_at : Nat
  access_count : Int
deriving DecidableEq

/-- Mirror of the Go struct `CreateURLRequest`. -/
structure CreateURLRequest where
  long_url : String
deriving DecidableEq

/-- Semantics of `json.Unmarshal([]byte(request.Body), &createReq)` for the
struct `CreateURLRequest`: `none` is a non-nil error.  A JSON object with
no `long_url` field, or top-level `null`, or `long_url: null`, leaves the
zero value `""` in place with a nil error; a top-level non-object or a
non-string `long_url` is an unmarshalling type error. -/
def unmarshalCreateURLRequest : Option JsonValue → Option CreateURLRequest
  | none => none
  | some (.obj fields) =>
    match lookupField "long_url" fields with
    | none => some ⟨""⟩
    | some (.str s) => some ⟨s⟩
    | some .null => some ⟨""⟩
    | some _ => none
  | some .null => some ⟨""⟩
  | some _ => none

/-- Mirror of `events.APIGatewayProxyRequest` restricted to the fields the
program reads: the HTTP method, the (pre-parsed) body, and the path
parameters (a Go `map[string]string`). -/
structure APIGatewayProxyRequest where
  httpMethod : String
  body : Option JsonValue
  pathParameters : List (String × String)

/-- Mirror of `events.APIGatewayProxyResponse` restricted to the fields
the program sets. -/
structure APIGatewayProxyResponse where
  statusCode : Nat
  headers : List (String × String)
  body : String
deriving DecidableEq

/-- First match of a key in an association list (Go map lookup). -/
def lookupMap (m : List (String × String)) (k : String) : Option String :=
  match m with
  | [] => none
  | (k1, v) :: rest => if k1 = k then some v else lookupMap rest k

/-- Go map indexing `m[k]`: a missing key yields the zero value `""`. -/
def indexMap (m : List (String × String)) (k : String) : String :=
  (lookupMap m k).getD ""

/-- The DynamoDB table content, keyed by `short_url`. -/
abbrev Store := List (String × URLMapping)

/-- Point lookup (`GetItem`): `none` models a missing item. -/
def storeGet (s : Store) (k : String) : Option URLMapping :=
  match s with
  | [] => none
  | (k1, v) :: rest => if k1 = k then some v else storeGet rest k

/-- Upsert (`PutItem`): silently overwrites on key collision. -/
def storePut (s : Store) (k : String) (v : URLMapping) : Store :=
  match s with
  | [] => [(k, v)]
  | (k1, v1) :: rest =>
    if k1 = k then (k, v) :: rest else (k1, v1) :: storePut rest k v

/-- Effect of the `UpdateItem` call incrementing `access_count` by 1 at
key `k`, at the store-contract level (the store provides atomic numeric
increment; absence of the record is tolerated). -/
def storeIncrement (s : Store) (k : String) : Store :=
  match s with
  | [] => []
  | (k1, v) :: rest =>
    if k1 = k then (k1, { v with access_count := v.access_count + 1 }) :: rest
    else (k1, v) :: storeIncrement rest k

/-- One attempted DynamoDB call, recorded even when the call fails. -/
inductive StoreOp where
  | put (key : String) (item : URLMapping) : StoreOp
  | get (key : String) : StoreOp
  | update (key : String) : StoreOp
deriving DecidableEq

/-- Failure oracle for the external AWS SDK and DynamoDB calls: each field
tells whether the corresponding fallible call in the Go code returns a
non-nil error on this request. -/
structure DDBEnv where
  marshalItemFails : Bool
  putFails : Bool
  keyMarshalFails : Bool
  getFails : Bool
  unmarshalItemFails : Bool
  updateFails : Bool
deriving DecidableEq

/-- The environment in which every external call succeeds. -/
def noFail : DDBEnv := ⟨false, false, false, false, false, false⟩

/-- Outcome of one handler invocation: the HTTP response, the Go error
return value (`none` is `nil`; the string stands for an opaque SDK error),
the store after the request, and the log of attempted store calls. -/
structure HandlerResult where
  response : APIGatewayProxyResponse
  err : Option String
  store : Store
  ops : List StoreOp
deriving DecidableEq

/-- Mirror of `generateShortURL`:
`fmt.Sprintf("%d", time.Now().UnixNano())[:8]`, the first 8 bytes of the
decimal rendering of the nanosecond timestamp. -/
def generateShortURL (now : Nat) : String :=
  (Nat.repr now).take 8

/-- Rendering of the created instant inside the JSON response body.  Go
marshals `time.Time` in RFC 3339; no claim inspects this text, so the
instant is rendered injectively as its nanosecond count. -/
def formatTime (t : Nat) : String :=
  Nat.repr t

/-- The `json.Marshal(urlMapping)` response body, fields in Go struct
order (escaping of special characters inside strings is not modelled). -/
def marshalURLMapping (m : URLMapping) : String :=
  "\x7b\"short_url\":\"" ++ m.short_url ++ "\",\"long_url\":\"" ++ m.long_url ++
    "\",\"created_at\":\"" ++ formatTime m.created_at ++ "\",\"access_count\":" ++
    toString m.access_count ++ "\x7d"

/-- Mirror of `createShortURL`: parse the body; on error answer 400 with a
nil error.  Otherwise build the mapping with `access_count = 0` and
`created_at = now`, marshal it (500 and a non-nil error on failure,
before any store call), `PutItem` it (500 and a non-nil error on failure)
and answer 201 with the marshalled record. -/
def createShortURL (env : DDBEnv) (now : Nat) (store : Store)
    (request : APIGatewayProxyRequest) : HandlerResult :=
  match unmarshalCreateURLRequest request.body with
  | none => ⟨⟨400, [], "Invalid request body"⟩, none, store, []⟩
  | some createReq =>
    let shortURL := generateShortURL now
    let urlMapping : URLMapping := ⟨shortURL, createReq.long_url, now, 0⟩
    if env.marshalItemFails then
      ⟨⟨500, [], "Error marshaling item"⟩, some "marshal error", store, []⟩
    else if env.putFails then
      ⟨⟨500, [], "Error saving to DynamoDB"⟩, some "ddb error", store,
        [.put shortURL urlMapping]⟩
    else
      ⟨⟨201, [("Content-Type", "application/json")], marshalURLMapping urlMapping⟩,
        none, storePut store shortURL urlMapping, [.put shortURL urlMapping]⟩

/-- Mirror of `getOriginalURL`: read `request.PathParameters["shortURL"]`
(zero value `""` when absent), marshal the key (500 on failure), `GetItem`
(500 on failure), answer 404 with a nil error when the item is missing,
unmarshal it (500 on failure), then attempt the `access_count` increment -
its failure is logged only and does not touch the response - and answer
301 with a `Location` header and an empty body. -/
def getOriginalURL (env : DDBEnv) (store : Store)
    (request : APIGatewayProxyRequest) : HandlerResult :=
  let shortURL := indexMap request.pathParameters "shortURL"
  if env.keyMarshalFails then
    ⟨⟨500, [], "Error creating key"⟩, some "marshal error", store, []⟩
  else if env.getFails then
    ⟨⟨500, [], "Error querying DynamoDB"⟩, some "ddb error", store, [.get shortURL]⟩
  else
    match storeGet store shortURL with
    | none => ⟨⟨404, [], "URL not found"⟩, none, store, [.get shortURL]⟩
    | some item =>
      if env.unmarshalItemFails then
        ⟨⟨500, [], "Error unmarshaling item"⟩, some "unmarshal error", store,
          [.get shortURL]⟩
      else
        let store2 := if env.updateFails then store else storeIncrement store shortURL
        ⟨⟨301, [("Location", item.long_url)], ""⟩, none, store2,
          [.get shortURL, .update shortURL]⟩

/-- Mirror of `handleRequest`: dispatch on the HTTP method; any method
other than POST and GET answers 405 without touching the store. -/
def handleRequest (env : DDBEnv) (now : Nat) (store : Store)
    (request : APIGatewayProxyRequest) : HandlerResult :=
  if request.httpMethod = "POST" then createShortURL env now store request
  else if request.httpMethod = "GET" then getOriginalURL env store request
  else ⟨⟨405, [], "Method not allowed"⟩, none, store, []⟩

/-! Helper lemmas about the store. -/

theorem storeGet_storePut (s : Store) (k : String) (v : URLMapping) :
    storeGet (storePut s k v) k = some v := by
  induction s with
  | nil => simp [storePut, storeGet]
  | cons hd tl ih =>
    obtain ⟨k1, v1⟩ := hd
    by_cases h : k1 = k <;> simp [storePut, storeGet, h, ih]

theorem storeGet_storeIncrement (s : Store) (k : String) (m : URLMapping)
    (hm : storeGet s k = some m) :
    storeGet (storeIncrement s k) k = some { m with access_count := m.access_count + 1 } := by
  induction s with
  | nil => simp [storeGet] at hm
  | cons hd tl ih =>
    obtain ⟨k1, v1⟩ := hd
    by_cases h : k1 = k
    · subst h
      rw [storeGet, if_pos rfl] at hm
      injection hm with h2
      subst h2
      simp [storeIncrement, storeGet]
    · simp only [storeGet, if_neg h] at hm
      simp [storeIncrement, storeGet, h, ih hm]

/-! Decimal rendering.  `Nat.repr` runs through the fuelled
`Nat.toDigitsCore`; `decDigits` is a fuel-free restatement used to reason
about the length and the characters of the rendering. -/

/-- Decimal digit characters of `n`, most significant first. -/
def decDigits (n : Nat) : List Char :=
  if _h : n < 10 then [Nat.digitChar n]
  else decDigits (n / 10) ++ [Nat.digitChar (n % 10)]
termination_by n
decreasing_by exact Nat.div_lt_self (by omega) (by omega)

theorem toDigitsCore_eq_decDigits : ∀ (f n : Nat) (ds : List Char), n < f →
    Nat.toDigitsCore 10 f n ds = decDigits n ++ ds := by
  intro f
  induction f with
  | zero => intro n ds h; omega
  | succ f ih =>
    intro n ds h
    by_cases h10 : n / 10 = 0
    · have hlt : n < 10 := by omega
      rw [decDigits]
      simp [Nat.toDigitsCore, h10, dif_pos hlt, Nat.mod_eq_of_lt hlt]
    · have hge : ¬ n < 10 := by
        intro hc
        exact h10 (Nat.div_eq_of_lt hc)
      have hfuel : n / 10 < f := by
        have h1 : n / 10 < n := Nat.div_lt_self (by omega) (by omega)
        omega
      rw [decDigits]
      simp only [Nat.toDigitsCore, h10, if_false, dif_neg hge]
      rw [ih (n / 10) _ hfuel]
      simp

theorem repr_eq_decDigits (n : Nat) : Nat.repr n = (decDigits n).asString := by
  rw [Nat.repr, Nat.toDigits, toDigitsCore_eq_decDigits (n + 1) n [] (Nat.lt_succ_self n)]
  simp

theorem decDigits_length_ge (k : Nat) : ∀ n : Nat, 10 ^ k ≤ n →
    k + 1 ≤ (decDigits n).length := by
  induction k with
  | zero =>
    intro n _
    rw [decDigits]
    split <;> simp
  | succ k ih =>
    intro n hn
    have hge : ¬ n < 10 := by
      have h1 : (10 : Nat) ≤ 10 ^ (k + 1) := by
        calc (10 : Nat) = 10 ^ 1 := (pow_one 10).symm
        _ ≤ 10 ^ (k + 1) := Nat.pow_le_pow_right (by omega) (by omega)
      omega
    have hdiv : 10 ^ k ≤ n / 10 := by
      rw [Nat.le_div_iff_mul_le (by omega)]
      calc 10 ^ k * 10 = 10 ^ (k + 1) := (pow_succ 10 k).symm
      _ ≤ n := hn
    rw [decDigits]
    rw [dif_neg hge]
    simp only [List.length_append, List.length_cons, List.length_nil]
    have := ih (n / 10) hdiv
    omega

theorem digitChar_isDigit : ∀ k : Nat, k < 10 → (Nat.digitChar k).isDigit := by decide

theorem decDigits_all_digit : ∀ n : Nat, ∀ c ∈ decDigits n, c.isDigit := by
  intro n
  induction n using Nat.strong_induction_on with
  | _ n ih =>
    rw [decDigits]
    split
    case isTrue h =>
      intro c hc
      simp only [List.mem_singleton] at hc
      subst hc
      exact digitChar_isDigit n h
    case isFalse h =>
      intro c hc
      rcases List.mem_append.mp hc with h1 | h2
      · exact ih (n / 10) (Nat.div_lt_self (by omega) (by omega)) c h1
      · simp only [List.mem_singleton] at h2
        subst h2
        exact digitChar_isDigit (n % 10) (Nat.mod_lt _ (by omega))

/-!
Claim theorems.
-/

/-- C4: for every invocation on a nanosecond timestamp of at least eight
decimal digits (`time.Now().UnixNano()` always is), the generated short
code is exactly 8 characters long and every character is a decimal
digit. -/
theorem generateShortURL_eight_digits (now : Nat) (h : 10 ^ 7 ≤ now) :
    (generateShortURL now).length = 8 ∧ ∀ c ∈ (generateShortURL now).data, c.isDigit := by
  have hlen : 7 + 1 ≤ (decDigits now).length := decDigits_length_ge 7 now h
  constructor
  · rw [generateShortURL, repr_eq_decDigits, String.take_eq]
    show (List.take 8 (List.asString (decDigits now)).data).length = 8
    have hdata : (List.asString (decDigits now)).data = decDigits now := rfl
    rw [hdata, List.length_take]
    omega
  · intro c hc
    rw [generateShortURL, repr_eq_decDigits, String.take_eq] at hc
    have hc2 : c ∈ List.take 8 (decDigits now) := hc
    exact decDigits_all_digit now c (List.take_subset 8 (decDigits now) hc2)

/-- C4 witness: a concrete timestamp with at least eight digits. -/
theorem generateShortURL_eight_digits_witness :
    10 ^ 7 ≤ 17091103 ∧ ((generateShortURL 17091103).length = 8 ∧
      ∀ c ∈ (generateShortURL 17091103).data, c.isDigit) :=
  ⟨by norm_num, generateShortURL_eight_digits 17091103 (by norm_num)⟩

/-- C5: the router dispatches to the create handler exactly on POST and to
the resolve handler exactly on GET; any other method yields status 405
with the plain-text body, a nil error, an unchanged store and no store
access. -/
theorem handleRequest_dispatch (env : DDBEnv) (now : Nat) (store : Store)
    (request : APIGatewayProxyRequest) :
    (request.httpMethod = "POST" →
      handleRequest env now store request = createShortURL env now store request) ∧
    (request.httpMethod = "GET" →
      handleRequest env now store request = getOriginalURL env store request) ∧
    (request.httpMethod ≠ "POST" → request.httpMethod ≠ "GET" →
      handleRequest env now store request =
        ⟨⟨405, [], "Method not allowed"⟩, none, store, []⟩) := by
  refine ⟨fun hp => ?_, fun hg => ?_, fun hp hg => ?_⟩
  · simp [handleRequest, hp]
  · simp [handleRequest, hg]
  · simp [handleRequest, hp, hg]

/-- C5 witness: the three router branches at concrete requests. -/
theorem handleRequest_dispatch_witness :
    handleRequest noFail 0 [] ⟨"POST", none, []⟩ = createShortURL noFail 0 [] ⟨"POST", none, []⟩ ∧
    handleRequest noFail 0 [] ⟨"GET", none, []⟩ = getOriginalURL noFail [] ⟨"GET", none, []⟩ ∧
    handleRequest noFail 0 [] ⟨"DELETE", none, []⟩ =
      ⟨⟨405, [], "Method not allowed"⟩, none, [], []⟩ :=
  ⟨(handleRequest_dispatch noFail 0 [] ⟨"POST", none, []⟩).1 rfl,
   (handleRequest_dispatch noFail 0 [] ⟨"GET", none, []⟩).2.1 rfl,
   (handleRequest_dispatch noFail 0 [] ⟨"DELETE", none, []⟩).2.2 (by decide) (by decide)⟩

/-- C2 counterexample: the body `{}` is valid JSON with no `long_url`
field, yet Create answers 201, attempts a store write and changes the
store - not the claimed 400 with no write. -/
theorem create_missing_long_url_accepted :
    (createShortURL noFail 17091103 [] ⟨"POST", some (.obj []), []⟩).response.statusCode = 201 ∧
    (createShortURL noFail 17091103 [] ⟨"POST", some (.obj []), []⟩).ops ≠ [] ∧
    (createShortURL noFail 17091103 [] ⟨"POST", some (.obj []), []⟩).store ≠ [] := by
  refine ⟨rfl, ?_, ?_⟩ <;> decide

/-- C2 amended: a Create request whose body fails to unmarshal into the
request struct (not valid JSON, or a non-object top level, or a
`long_url` field holding a non-string, non-null value) answers 400 with a
nil error, an unchanged store and no store access; a well-formed JSON
object merely missing `long_url` is instead accepted and stored with an
empty `long_url`. -/
theorem create_bad_body_rejected (env : DDBEnv) (now : Nat) (store : Store)
    (request : APIGatewayProxyRequest)
    (hbody : unmarshalCreateURLRequest request.body = none) :
    createShortURL env now store request =
      ⟨⟨400, [], "Invalid request body"⟩, none, store, []⟩ := by
  simp [createShortURL, hbody]

/-- C2 amended witness: a body whose `long_url` field holds a number. -/
theorem create_bad_body_rejected_witness :
    unmarshalCreateURLRequest (some (.obj [("long_url", .num 5)])) = none ∧
    createShortURL noFail 0 [] ⟨"POST", some (.obj [("long_url", .num 5)]), []⟩ =
      ⟨⟨400, [], "Invalid request body"⟩, none, [], []⟩ :=
  ⟨rfl, create_bad_body_rejected noFail 0 []
    ⟨"POST", some (.obj [("long_url", .num 5)]), []⟩ rfl⟩

/-- C1: Create on body `\x7b"long_url": u\x7d` answers 201 whose body
carries the record keyed by `generateShortURL now`, and Resolve on that
short code (whatever the fate of the counter increment) answers a
redirect whose `Location` header is the original `u`; external-call
failures aside (hypotheses), this is the round trip. -/
theorem create_then_resolve (env1 env2 : DDBEnv) (now : Nat) (store : Store)
    (u : String) (pp : List (String × String))
    (h1 : env1.marshalItemFails = false) (h2 : env1.putFails = false)
    (h3 : env2.keyMarshalFails = false) (h4 : env2.getFails = false)
    (h5 : env2.unmarshalItemFails = false) :
    (handleRequest env1 now store
        ⟨"POST", some (.obj [("long_url", .str u)]), pp⟩).response.statusCode = 201 ∧
    (handleRequest env1 now store
        ⟨"POST", some (.obj [("long_url", .str u)]), pp⟩).response.body =
      marshalURLMapping ⟨generateShortURL now, u, now, 0⟩ ∧
    (handleRequest env2 now
        (handleRequest env1 now store ⟨"POST", some (.obj [("long_url", .str u)]), pp⟩).store
        ⟨"GET", none, [("shortURL", generateShortURL now)]⟩).response.statusCode = 301 ∧
    (handleRequest env2 now
        (handleRequest env1 now store ⟨"POST", some (.obj [("long_url", .str u)]), pp⟩).store
        ⟨"GET", none, [("shortURL", generateShortURL now)]⟩).response.headers =
      [("Location", u)] := by
  have hcreate : handleRequest env1 now store
      ⟨"POST", some (.obj [("long_url", .str u)]), pp⟩ =
      ⟨⟨201, [("Content-Type", "application/json")],
          marshalURLMapping ⟨generateShortURL now, u, now, 0⟩⟩, none,
        storePut store (generateShortURL now) ⟨generateShortURL now, u, now, 0⟩,
        [.put (generateShortURL now) ⟨generateShortURL now, u, now, 0⟩]⟩ := by
    simp [handleRequest, createShortURL, unmarshalCreateURLRequest, lookupField, h1, h2]
  rw [hcreate]
  refine ⟨rfl, rfl, ?_, ?_⟩ <;>
    (generalize generateShortURL now = g;
     simp [handleRequest, getOriginalURL, indexMap, lookupMap, h3, h4, h5, storeGet_storePut])

/-- C1 witness: a concrete round trip on `https://example.com`. -/
theorem create_then_resolve_witness :
    noFail.marshalItemFails = false ∧ noFail.putFails = false ∧
    noFail.keyMarshalFails = false ∧ noFail.getFails = false ∧
    noFail.unmarshalItemFails = false ∧
    ((handleRequest noFail 17091103 []
        ⟨"POST", some (.obj [("long_url", .str "https://example.com")]), []⟩).response.statusCode = 201 ∧
     (handleRequest noFail 17091103 []
        ⟨"POST", some (.obj [("long_url", .str "https://example.com")]), []⟩).response.body =
       marshalURLMapping ⟨generateShortURL 17091103, "https://example.com", 17091103, 0⟩ ∧
     (handleRequest noFail 17091103
        (handleRequest noFail 17091103 []
          ⟨"POST", some (.obj [("long_url", .str "https://example.com")]), []⟩).store
        ⟨"GET", none, [("shortURL", generateShortURL 17091103)]⟩).response.statusCode = 301 ∧
     (handleRequest noFail 17091103
        (handleRequest noFail 17091103 []
          ⟨"POST", some (.obj [("long_url", .str "https://example.com")]), []⟩).store
        ⟨"GET", none, [("shortURL", generateShortURL 17091103)]⟩).response.headers =
       [("Location", "https://example.com")]) :=
  ⟨rfl, rfl, rfl, rfl, rfl,
    create_then_resolve noFail noFail 17091103 [] "https://example.com" []
      rfl rfl rfl rfl rfl⟩

/-- C3: when the record exists and the read path succeeds, Resolve logs an
`update` store call under the same key; the run where that increment
fails has the very same response as the run where it succeeds, a nil
error and status 301, so the failure never surfaces. -/
theorem increment_failure_invisible (env : DDBEnv) (store : Store)
    (pp : List (String × String)) (m : URLMapping)
    (h3 : env.keyMarshalFails = false) (h4 : env.getFails = false)
    (h5 : env.unmarshalItemFails = false)
    (hm : storeGet store (indexMap pp "shortURL") = some m) :
    StoreOp.update (indexMap pp "shortURL") ∈
      (getOriginalURL { env with updateFails := true } store ⟨"GET", none, pp⟩).ops ∧
    (getOriginalURL { env with updateFails := true } store ⟨"GET", none, pp⟩).response =
      (getOriginalURL { env with updateFails := false } store ⟨"GET", none, pp⟩).response ∧
    (getOriginalURL { env with updateFails := true } store ⟨"GET", none, pp⟩).err = none ∧
    (getOriginalURL { env with updateFails := true } store
        ⟨"GET", none, pp⟩).response.statusCode = 301 := by
  refine ⟨?_, ?_, ?_, ?_⟩ <;> simp [getOriginalURL, h3, h4, h5, hm]

/-- C3 witness: a concrete store holding one record. -/
theorem increment_failure_invisible_witness :
    noFail.keyMarshalFails = false ∧ noFail.getFails = false ∧
    noFail.unmarshalItemFails = false ∧
    storeGet [("c", ⟨"c", "https://example.com", 0, 0⟩)]
      (indexMap [("shortURL", "c")] "shortURL") = some ⟨"c", "https://example.com", 0, 0⟩ ∧
    (StoreOp.update (indexMap [("shortURL", "c")] "shortURL") ∈
      (getOriginalURL { noFail with updateFails := true }
        [("c", ⟨"c", "https://example.com", 0, 0⟩)] ⟨"GET", none, [("shortURL", "c")]⟩).ops ∧
     (getOriginalURL { noFail with updateFails := true }
        [("c", ⟨"c", "https://example.com", 0, 0⟩)] ⟨"GET", none, [("shortURL", "c")]⟩).response =
       (getOriginalURL { noFail with updateFails := false }
        [("c", ⟨"c", "https://example.com", 0, 0⟩)] ⟨"GET", none, [("shortURL", "c")]⟩).response ∧
     (getOriginalURL { noFail with updateFails := true }
        [("c", ⟨"c", "https://example.com", 0, 0⟩)] ⟨"GET", none, [("shortURL", "c")]⟩).err = none ∧
     (getOriginalURL { noFail with updateFails := true }
        [("c", ⟨"c", "https://example.com", 0, 0⟩)]
        ⟨"GET", none, [("shortURL", "c")]⟩).response.statusCode = 301) :=
  ⟨rfl, rfl, rfl, rfl,
    increment_failure_invisible noFail [("c", ⟨"c", "https://example.com", 0, 0⟩)]
      [("shortURL", "c")] ⟨"c", "https://example.com", 0, 0⟩ rfl rfl rfl rfl⟩

/-- C6: when the key marshal and the store query succeed but no record
exists under the short code, Resolve answers exactly 404 with a nil
error, an unchanged store and a single read as its only store access. -/
theorem resolve_not_found (env : DDBEnv) (store : Store)
    (pp : List (String × String))
    (h3 : env.keyMarshalFails = false) (h4 : env.getFails = false)
    (habs : storeGet store (indexMap pp "shortURL") = none) :
    getOriginalURL env store ⟨"GET", none, pp⟩ =
      ⟨⟨404, [], "URL not found"⟩, none, store, [.get (indexMap pp "shortURL")]⟩ := by
  simp [getOriginalURL, h3, h4, habs]

/-- C6 witness: an empty store and the never-created code `00000000`. -/
theorem resolve_not_found_witness :
    noFail.keyMarshalFails = false ∧ noFail.getFails = false ∧
    storeGet [] (indexMap [("shortURL", "00000000")] "shortURL") = none ∧
    getOriginalURL noFail [] ⟨"GET", none, [("shortURL", "00000000")]⟩ =
      ⟨⟨404, [], "URL not found"⟩, none, [],
        [.get (indexMap [("shortURL", "00000000")] "shortURL")]⟩ :=
  ⟨rfl, rfl, rfl,
    resolve_not_found noFail [] [("shortURL", "00000000")] rfl rfl rfl⟩

/-- C7: when the record exists and the read path succeeds, Resolve's
response is exactly status 301 with a sole `Location` header equal to the
record's `long_url` and an empty body, and the error return is nil,
whatever the fate of the counter increment. -/
theorem resolve_found_redirect (env : DDBEnv) (store : Store)
    (pp : List (String × String)) (m : URLMapping)
    (h3 : env.keyMarshalFails = false) (h4 : env.getFails = false)
    (h5 : env.unmarshalItemFails = false)
    (hm : storeGet store (indexMap pp "shortURL") = some m) :
    (getOriginalURL env store ⟨"GET", none, pp⟩).response =
      ⟨301, [("Location", m.long_url)], ""⟩ ∧
    (getOriginalURL env store ⟨"GET", none, pp⟩).err = none := by
  constructor <;> simp [getOriginalURL, h3, h4, h5, hm]

/-- C7 witness: a concrete store holding one record. -/
theorem resolve_found_redirect_witness :
    noFail.keyMarshalFails = false ∧ noFail.getFails = false ∧
    noFail.unmarshalItemFails = false ∧
    storeGet [("c", ⟨"c", "https://example.com", 0, 0⟩)]
      (indexMap [("shortURL", "c")] "shortURL") = some ⟨"c", "https://example.com", 0, 0⟩ ∧
    ((getOriginalURL noFail [("c", ⟨"c", "https://example.com", 0, 0⟩)]
        ⟨"GET", none, [("shortURL", "c")]⟩).response =
      ⟨301, [("Location", "https://example.com")], ""⟩ ∧
     (getOriginalURL noFail [("c", ⟨"c", "https://example.com", 0, 0⟩)]
        ⟨"GET", none, [("shortURL", "c")]⟩).err = none) :=
  ⟨rfl, rfl, rfl, rfl,
    resolve_found_redirect noFail [("c", ⟨"c", "https://example.com", 0, 0⟩)]
      [("shortURL", "c")] ⟨"c", "https://example.com", 0, 0⟩ rfl rfl rfl rfl⟩

/-- C8: a successful Create stores under the fresh short code a record
whose `access_count` is 0, and a successful Resolve of an existing record
answers that record's `long_url` while leaving under the same key a
record with the same `long_url` and an `access_count` at least the old
one - so repeated Resolve calls keep answering the same `long_url` and
the counter never decreases. -/
theorem access_count_invariants (env1 : DDBEnv) (now : Nat) (store1 : Store)
    (body : Option JsonValue) (pp1 : List (String × String))
    (createReq : CreateURLRequest)
    (env2 : DDBEnv) (store2 : Store) (code : String) (m : URLMapping)
    (hbody : unmarshalCreateURLRequest body = some createReq)
    (h1 : env1.marshalItemFails = false) (h2 : env1.putFails = false)
    (h3 : env2.keyMarshalFails = false) (h4 : env2.getFails = false)
    (h5 : env2.unmarshalItemFails = false)
    (hm : storeGet store2 code = some m) :
    (storeGet (createShortURL env1 now store1 ⟨"POST", body, pp1⟩).store
        (generateShortURL now) =
      some ⟨generateShortURL now, createReq.long_url, now, 0⟩ ∧
     (⟨generateShortURL now, createReq.long_url, now, 0⟩ : URLMapping).access_count = 0) ∧
    ((getOriginalURL env2 store2 ⟨"GET", none, [("shortURL", code)]⟩).response.headers =
      [("Location", m.long_url)] ∧
     ∃ m2, storeGet (getOriginalURL env2 store2
          ⟨"GET", none, [("shortURL", code)]⟩).store code = some m2 ∧
       m2.long_url = m.long_url ∧ m.access_count ≤ m2.access_count) := by
  have hidx : indexMap [("shortURL", code)] "shortURL" = code := by
    simp [indexMap, lookupMap]
  refine ⟨⟨?_, rfl⟩, ?_, ?_⟩
  · have hc : (createShortURL env1 now store1 ⟨"POST", body, pp1⟩).store =
        storePut store1 (generateShortURL now)
          ⟨generateShortURL now, createReq.long_url, now, 0⟩ := by
      simp [createShortURL, hbody, h1, h2]
    rw [hc]
    exact storeGet_storePut store1 (generateShortURL now) _
  · simp [getOriginalURL, hidx, h3, h4, h5, hm]
  · by_cases hupd : env2.updateFails
    · refine ⟨m, ?_, rfl, le_refl _⟩
      simp [getOriginalURL, hidx, h3, h4, h5, hm, hupd]
    · refine ⟨{ m with access_count := m.access_count + 1 }, ?_, rfl, by simp⟩
      simp only [getOriginalURL, hidx, h3, h4, h5, hm, Bool.false_eq_true, if_false,
        eq_self_iff_true]
      simp [hupd, storeGet_storeIncrement store2 code m hm]

/-- C8 witness: a concrete create on an empty store and a concrete
resolve of an existing record. -/
theorem access_count_invariants_witness :
    unmarshalCreateURLRequest (some (.obj [("long_url", .str "https://example.com")])) =
      some ⟨"https://example.com"⟩ ∧
    noFail.marshalItemFails = false ∧ noFail.putFails = false ∧
    noFail.keyMarshalFails = false ∧ noFail.getFails = false ∧
    noFail.unmarshalItemFails = false ∧
    storeGet [("c", ⟨"c", "https://example.com", 0, 2⟩)] "c" =
      some ⟨"c", "https://example.com", 0, 2⟩ ∧
    ((storeGet (createShortURL noFail 17091103 []
          ⟨"POST", some (.obj [("long_url", .str "https://example.com")]), []⟩).store
        (generateShortURL 17091103) =
      some ⟨generateShortURL 17091103, ("https://example.com" : String), 17091103, 0⟩ ∧
      (⟨generateShortURL 17091103, "https://example.com", 17091103, 0⟩ : URLMapping).access_count = 0) ∧
     ((getOriginalURL noFail [("c", ⟨"c", "https://example.com", 0, 2⟩)]
          ⟨"GET", none, [("shortURL", "c")]⟩).response.headers =
       [("Location", "https://example.com")] ∧
      ∃ m2, storeGet (getOriginalURL noFail [("c", ⟨"c", "https://example.com", 0, 2⟩)]
            ⟨"GET", none, [("shortURL", "c")]⟩).store "c" = some m2 ∧
        m2.long_url = "https://example.com" ∧ (2 : Int) ≤ m2.access_count)) :=
  ⟨rfl, rfl, rfl, rfl, rfl, rfl, rfl,
    access_count_invariants noFail 17091103 []
      (some (.obj [("long_url", .str "https://example.com")])) [] ⟨"https://example.com"⟩
      noFail [("c", ⟨"c", "https://example.com", 0, 2⟩)] "c"
      ⟨"c", "https://example.com", 0, 2⟩ rfl rfl rfl rfl rfl rfl rfl⟩

/-- C9: when the body unmarshals but marshalling the constructed record
to store attribute values fails, Create answers exactly 500 with a
non-nil error, an unchanged store and no store access at all. -/
theorem create_marshal_failure (env : DDBEnv) (now : Nat) (store : Store)
    (request : APIGatewayProxyRequest) (createReq : CreateURLRequest)
    (hbody : unmarshalCreateURLRequest request.body = some createReq)
    (hfail : env.marshalItemFails = true) :
    createShortURL env now store request =
      ⟨⟨500, [], "Error marshaling item"⟩, some "marshal error", store, []⟩ := by
  simp [createShortURL, hbody, hfail]

/-- C9 witness: a marshal-failure environment at a concrete request. -/
theorem create_marshal_failure_witness :
    unmarshalCreateURLRequest (some (.obj [("long_url", .str "https://example.com")])) =
      some ⟨"https://example.com"⟩ ∧
    ({ noFail with marshalItemFails := true } : DDBEnv).marshalItemFails = true ∧
    createShortURL { noFail with marshalItemFails := true } 17091103 []
        ⟨"POST", some (.obj [("long_url", .str "https://example.com")]), []⟩ =
      ⟨⟨500, [], "Error marshaling item"⟩, some "marshal error", [], []⟩ :=
  ⟨rfl, rfl,
    create_marshal_failure { noFail with marshalItemFails := true } 17091103 []
      ⟨"POST", some (.obj [("long_url", .str "https://example.com")]), []⟩
      ⟨"https://example.com"⟩ rfl rfl⟩

/-- C10: a Resolve whose path parameters carry no `shortURL` entry uses
the zero value `""` as the short code: its first store access is a read
of the empty key, and the response is never the 400 client rejection. -/
theorem resolve_missing_param (env : DDBEnv) (store : Store)
    (pp : List (String × String))
    (hpp : lookupMap pp "shortURL" = none) (hk : env.keyMarshalFails = false) :
    (getOriginalURL env store ⟨"GET", none, pp⟩).ops.head? = some (.get "") ∧
    (getOriginalURL env store ⟨"GET", none, pp⟩).response.statusCode ≠ 400 := by
  have hidx : indexMap pp "shortURL" = "" := by simp [indexMap, hpp]
  by_cases hg : env.getFails
  · constructor <;> simp [getOriginalURL, hidx, hk, hg]
  · cases hsg : storeGet store "" with
    | none => constructor <;> simp [getOriginalURL, hidx, hk, hg, hsg]
    | some item =>
      by_cases hu : env.unmarshalItemFails <;>
        (constructor <;> simp [getOriginalURL, hidx, hk, hg, hsg, hu])

/-- C10 witness: a request with empty path parameters on an empty
store. -/
theorem resolve_missing_param_witness :
    lookupMap [] "shortURL" = none ∧ noFail.keyMarshalFails = false ∧
    ((getOriginalURL noFail [] ⟨"GET", none, []⟩).ops.head? = some (.get "") ∧
     (getOriginalURL noFail [] ⟨"GET", none, []⟩).response.statusCode ≠ 400) :=
  ⟨rfl, rfl, resolve_missing_param noFail [] [] rfl rfl⟩

end UrlShortener
